import Mathlib

/-!
Shallow embedding of the core of the `forgetful-savant` sprite renderer:
the 4-vector and 4x4-matrix library (`src/graphics/gl/Vector.ts`,
`src/graphics/gl/Matrix.ts`), the component registry
(`ComponentManager`), the drawable entity (`Sprite`) and the draw entry
point of the rendering abstraction (`GLWrapper.draw`).  JavaScript
numbers are embedded as real numbers; fallible constructors return
`Except`; the mutable draw path is embedded as explicit state passing
on a log of submitted draw calls.
-/

namespace FS

/-- A 4x4 matrix.  The internal list `m` mirrors the private field
`m: number[]` of `class Matrix`; the data is stored transposed
(column-major): the mathematical entry at row `i`, column `j` lives at
linear index `4*j + i`. -/
structure Matrix where
  m : List ℝ

/-- A four-dimensional vector, mirroring the private field `v: number[]`
of `class Vector`. -/
structure Vector where
  v : List ℝ

/-- The `Matrix` constructor.  `none` embeds calling `new Matrix()` with
`raw` undefined (zero matrix); `some raw` embeds `new Matrix(raw)`:
when `raw.length >= 16` the first sixteen entries are copied, otherwise
an `Error` is thrown whose message is the fixed text followed by the
stringified offending input (embedded as the pair of the fixed text and
the offending list). -/
def Matrix.make (raw : Option (List ℝ)) : Except (String × List ℝ) Matrix :=
  match raw with
  | none => .ok ⟨[0, 0, 0, 0, 0, 0, 0, 0, 0, 0, 0, 0, 0, 0, 0, 0]⟩
  | some raw =>
    if 16 ≤ raw.length then
      .ok ⟨raw.take 16⟩
    else
      .error ("Matrix(): the length of `raw` parameter must be no fewer than 16: ", raw)

/-- The `Vector` constructor, analogous to `Matrix.make`. -/
def Vector.make (raw : Option (List ℝ)) : Except (String × List ℝ) Vector :=
  match raw with
  | none => .ok ⟨[0, 0, 0, 0]⟩
  | some raw =>
    if 4 ≤ raw.length then
      .ok ⟨raw.take 4⟩
    else
      .error ("Vector(): the length of `raw` parameter must be no fewer than 4: ", raw)

/-- `Matrix.at(i, j)`: the element at mathematical row `i`, column `j`,
read from the transposed storage as `this.m[4 * j + i]`.  (Out-of-range
reads, which yield `undefined` in JavaScript and are never performed by
the program, default to `0`.) -/
def Matrix.at (A : Matrix) (i j : ℕ) : ℝ := A.m.getD (4 * j + i) 0

/-- `Matrix.setAt(i, j, val)`: writes `this.m[4 * j + i] = val`. -/
def Matrix.setAt (A : Matrix) (i j : ℕ) (val : ℝ) : Matrix :=
  ⟨A.m.set (4 * j + i) val⟩

/-- The `new Matrix()` call (`raw` undefined) made by `mul` for its
result accumulator: the zero matrix. -/
def Matrix.zero : Matrix := ⟨[0, 0, 0, 0, 0, 0, 0, 0, 0, 0, 0, 0, 0, 0, 0, 0]⟩

/-- `Matrix.mul(m2)`: the triple loop of the source, with the mutable
`result` and `val` accumulators threaded through folds over the loop
ranges `0..3`:
`result.setAt(i, j, Σ_k this.at(i,k) * m2.at(k,j))` for every `i, j`. -/
def Matrix.mul (A m2 : Matrix) : Matrix :=
  (List.range 4).foldl (fun result i =>
    (List.range 4).foldl (fun result j =>
      result.setAt i j
        ((List.range 4).foldl (fun val k => val + A.at i k * m2.at k j) 0))
      result)
    Matrix.zero

/-- `Matrix.identity()`. -/
def Matrix.identity : Matrix :=
  ⟨[1, 0, 0, 0,
    0, 1, 0, 0,
    0, 0, 1, 0,
    0, 0, 0, 1]⟩

/-- `Matrix.scaler(x, y, z)`.  The literal below is the `raw` array of
the source, which the constructor stores transposed. -/
def Matrix.scaler (x y z : ℝ) : Matrix :=
  ⟨[x, 0, 0, 0,
    0, y, 0, 0,
    0, 0, z, 0,
    0, 0, 0, 1]⟩

/-- `Matrix.rotatorX(r)`.  The literal below is the `raw` array of the
source, which the constructor stores transposed. -/
noncomputable def Matrix.rotatorX (r : ℝ) : Matrix :=
  ⟨[1, 0, 0, 0,
    0, Real.cos r, -Real.sin r, 0,
    0, Real.sin r, Real.cos r, 0,
    0, 0, 0, 1]⟩

/-- `Matrix.rotatorY(r)`.  The literal below is the `raw` array of the
source, which the constructor stores transposed. -/
noncomputable def Matrix.rotatorY (r : ℝ) : Matrix :=
  ⟨[Real.cos r, 0, Real.sin r, 0,
    0, 1, 0, 0,
    -Real.sin r, 0, Real.cos r, 0,
    0, 0, 0, 1]⟩

/-- `Matrix.rotatorZ(r)`.  The literal below is the `raw` array of the
source, which the constructor stores transposed. -/
noncomputable def Matrix.rotatorZ (r : ℝ) : Matrix :=
  ⟨[Real.cos r, -Real.sin r, 0, 0,
    Real.sin r, Real.cos r, 0, 0,
    0, 0, 1, 0,
    0, 0, 0, 1]⟩

/-- `Matrix.translator(x, y, z)`.  The literal below is the `raw` array
of the source, which the constructor stores transposed. -/
def Matrix.translator (x y z : ℝ) : Matrix :=
  ⟨[1, 0, 0, 0,
    0, 1, 0, 0,
    0, 0, 1, 0,
    x, y, z, 1]⟩

/-- `GLWrapper.VIEWPORT_WIDTH`. -/
def VIEWPORT_WIDTH : ℝ := 1280

/-- `GLWrapper.VIEWPORT_HEIGHT`. -/
def VIEWPORT_HEIGHT : ℝ := 960

/-- `GLWrapper.VIEWPORT_DEPTH`. -/
def VIEWPORT_DEPTH : ℝ := 100

/-- The projection matrix `matProj` uploaded by the `GLWrapper`
constructor.  The `Float32Array` literal of the source is passed to
`uniformMatrix4fv` with `transpose = false`, so WebGL reads it
column-major: mathematically its entry at row `i`, column `j` is the
literal's element `4*j + i`, the same transposed convention as
`Matrix`, so it is embedded as a `Matrix` with the literal as `m`. -/
noncomputable def matProj : Matrix :=
  ⟨[2 / VIEWPORT_WIDTH, 0, 0, 0,
    0, 2 / VIEWPORT_HEIGHT, 0, 0,
    0, 0, -2 / VIEWPORT_DEPTH, 0,
    0, 0, 0, 1]⟩

/-- The mathematical semantics of the GLSL product `mat4 * vec4` used by
the vertex shader (`uniProj * uniTrs * uniRot * uniScl * inPos`):
`(A * v)[i] = Σ_k A(i,k) * v[k]`, with `A(i,k)` the mathematical
(column-major-decoded) entry, i.e. `Matrix.at`. -/
def Matrix.mulVec (A : Matrix) (v : Fin 4 → ℝ) : Fin 4 → ℝ :=
  fun i => ∑ k : Fin 4, A.at i.val k.val * v k

/-- One draw submission of `GLWrapper.draw(matScl, matRot, matTrs,
vecCol)`: the four per-object uniforms it uploads before issuing the
indexed draw. -/
structure DrawCall where
  matScl : Matrix
  matRot : Matrix
  matTrs : Matrix
  vecCol : Vector

/-- `GLWrapper.draw`, embedded as its observable effect on the frame:
it appends one `DrawCall` with exactly its four arguments to the log of
submissions made on the GPU context. -/
def GLWrapper.draw (log : List DrawCall) (matScl matRot matTrs : Matrix)
    (vecCol : Vector) : List DrawCall :=
  log ++ [⟨matScl, matRot, matTrs, vecCol⟩]

/-- The `Sprite` component state: the `enabled` flag of the `IComponent`
implementation plus position, rotation, scale and color tuples. -/
structure Sprite where
  enabled : Bool
  pos : ℝ × ℝ × ℝ
  rot : ℝ × ℝ × ℝ
  scl : ℝ × ℝ
  col : ℝ × ℝ × ℝ × ℝ

/-- The `Sprite` constructor: `enabled = true`, and each omitted
(`undefined`) argument replaced by its documented default. -/
def Sprite.make (pos rot : Option (ℝ × ℝ × ℝ)) (scl : Option (ℝ × ℝ))
    (col : Option (ℝ × ℝ × ℝ × ℝ)) : Sprite :=
  ⟨true, pos.getD (0, 0, 0), rot.getD (0, 0, 0), scl.getD (1, 1),
    col.getD (0, 0, 0, 0)⟩

/-- `Sprite.isEnabled()`. -/
def Sprite.isEnabled (s : Sprite) : Bool := s.enabled

/-- `Sprite.enable()`. -/
def Sprite.enable (s : Sprite) : Sprite := ⟨true, s.pos, s.rot, s.scl, s.col⟩

/-- `Sprite.disable()`. -/
def Sprite.disable (s : Sprite) : Sprite := ⟨false, s.pos, s.rot, s.scl, s.col⟩

/-- `Sprite.getPosition()`. -/
def Sprite.getPosition (s : Sprite) : ℝ × ℝ × ℝ := s.pos

/-- `Sprite.getRotation()`. -/
def Sprite.getRotation (s : Sprite) : ℝ × ℝ × ℝ := s.rot

/-- `Sprite.getScale()`. -/
def Sprite.getScale (s : Sprite) : ℝ × ℝ := s.scl

/-- `Sprite.getColor()`. -/
def Sprite.getColor (s : Sprite) : ℝ × ℝ × ℝ × ℝ := s.col

/-- `Sprite.setPosition(pos)`. -/
def Sprite.setPosition (s : Sprite) (pos : ℝ × ℝ × ℝ) : Sprite :=
  ⟨s.enabled, pos, s.rot, s.scl, s.col⟩

/-- `Sprite.setRotation(rot)`. -/
def Sprite.setRotation (s : Sprite) (rot : ℝ × ℝ × ℝ) : Sprite :=
  ⟨s.enabled, s.pos, rot, s.scl, s.col⟩

/-- `Sprite.setScale(scl)`. -/
def Sprite.setScale (s : Sprite) (scl : ℝ × ℝ) : Sprite :=
  ⟨s.enabled, s.pos, s.rot, scl, s.col⟩

/-- `Sprite.setColor(col)`. -/
def Sprite.setColor (s : Sprite) (col : ℝ × ℝ × ℝ × ℝ) : Sprite :=
  ⟨s.enabled, s.pos, s.rot, s.scl, col⟩

/-- `Sprite.draw(gl)`: calls
`gl.draw(Matrix.scaler(scl[0], scl[1], 1),
Matrix.rotatorX(rot[0]).mul(Matrix.rotatorY(rot[1]).mul(Matrix.rotatorZ(rot[2]))),
Matrix.translator(pos[0], pos[1], pos[2]),
new Vector([col[0], col[1], col[2], col[3]]))`, embedded on the
renderer's draw-call log.  (The `new Vector` call has a 4-element
argument, hence takes the non-throwing branch of the constructor and
produces the vector holding those four values.) -/
noncomputable def Sprite.draw (s : Sprite) (log : List DrawCall) : List DrawCall :=
  GLWrapper.draw log
    (Matrix.scaler s.scl.1 s.scl.2 1)
    ((Matrix.rotatorX s.rot.1).mul ((Matrix.rotatorY s.rot.2.1).mul
      (Matrix.rotatorZ s.rot.2.2)))
    (Matrix.translator s.pos.1 s.pos.2.1 s.pos.2.2)
    ⟨[s.col.1, s.col.2.1, s.col.2.2.1, s.col.2.2.2]⟩

/-- The `ComponentManager`, generic in the component value type `C`
(in the source, any object implementing `IComponent`). -/
structure ComponentManager (C : Type) where
  components : List C

/-- The `ComponentManager` constructor: `this.components = []`. -/
def ComponentManager.new (C : Type) : ComponentManager C := ⟨[]⟩

/-- `ComponentManager.add(component)`: `this.components.push(component)`. -/
def ComponentManager.add {C : Type} (cm : ComponentManager C) (c : C) :
    ComponentManager C :=
  ⟨cm.components ++ [c]⟩

/-- `ComponentManager.get(type)`.  The class argument `type` is embedded
as the Boolean test `instOf c = (c instanceof type)`, which in
JavaScript holds exactly when the runtime class of `c` equals the
requested class or extends it (prototype chain).  The loop pushing the
matching elements onto `res` becomes a fold over the collection. -/
def ComponentManager.get {C : Type} (cm : ComponentManager C)
    (instOf : C → Bool) : List C :=
  cm.components.foldl (fun res n => if instOf n then res ++ [n] else res) []

/-- Specification side, for comparison with `Matrix.rotatorX`: the
entries of the standard right-handed rotation about the X axis by `t`
radians, written from the formula of the specification (row `i`,
column `j`). -/
noncomputable def stdRotX (t : ℝ) (i j : ℕ) : ℝ :=
  if i = 0 ∧ j = 0 then 1
  else if i = 1 ∧ j = 1 then Real.cos t
  else if i = 1 ∧ j = 2 then -Real.sin t
  else if i = 2 ∧ j = 1 then Real.sin t
  else if i = 2 ∧ j = 2 then Real.cos t
  else if i = 3 ∧ j = 3 then 1
  else 0

/-- Specification side, for comparison with `Matrix.rotatorY`: the
entries of the standard right-handed rotation about the Y axis by `t`
radians. -/
noncomputable def stdRotY (t : ℝ) (i j : ℕ) : ℝ :=
  if i = 0 ∧ j = 0 then Real.cos t
  else if i = 0 ∧ j = 2 then Real.sin t
  else if i = 1 ∧ j = 1 then 1
  else if i = 2 ∧ j = 0 then -Real.sin t
  else if i = 2 ∧ j = 2 then Real.cos t
  else if i = 3 ∧ j = 3 then 1
  else 0

/-- Specification side, for comparison with `Matrix.rotatorZ`: the
entries of the standard right-handed rotation about the Z axis by `t`
radians (`at(0,0) = cos t`, `at(0,1) = -sin t`, `at(1,0) = sin t`,
`at(1,1) = cos t`, `at(2,2) = at(3,3) = 1`, all other entries `0`). -/
noncomputable def stdRotZ (t : ℝ) (i j : ℕ) : ℝ :=
  if i = 0 ∧ j = 0 then Real.cos t
  else if i = 0 ∧ j = 1 then -Real.sin t
  else if i = 1 ∧ j = 0 then Real.sin t
  else if i = 1 ∧ j = 1 then Real.cos t
  else if i = 2 ∧ j = 2 then 1
  else if i = 3 ∧ j = 3 then 1
  else 0

/-- Helper: `List.getD` with default `0` at an in-range index is the
indexed element. -/
theorem getD_zero_eq_getElem (l : List ℝ) (n : ℕ) (h : n < l.length) :
    l.getD n 0 = l[n] :=
  List.getD_eq_getElem l 0 h

/-- Helper: the internal list computed by `Matrix.mul`, with the sixteen
accumulated sums written out (position `4*j + i` carries the entry at
row `i`, column `j`). -/
theorem mul_m (A B : Matrix) : (A.mul B).m =
    [0 + A.at 0 0 * B.at 0 0 + A.at 0 1 * B.at 1 0 + A.at 0 2 * B.at 2 0 + A.at 0 3 * B.at 3 0,
     0 + A.at 1 0 * B.at 0 0 + A.at 1 1 * B.at 1 0 + A.at 1 2 * B.at 2 0 + A.at 1 3 * B.at 3 0,
     0 + A.at 2 0 * B.at 0 0 + A.at 2 1 * B.at 1 0 + A.at 2 2 * B.at 2 0 + A.at 2 3 * B.at 3 0,
     0 + A.at 3 0 * B.at 0 0 + A.at 3 1 * B.at 1 0 + A.at 3 2 * B.at 2 0 + A.at 3 3 * B.at 3 0,
     0 + A.at 0 0 * B.at 0 1 + A.at 0 1 * B.at 1 1 + A.at 0 2 * B.at 2 1 + A.at 0 3 * B.at 3 1,
     0 + A.at 1 0 * B.at 0 1 + A.at 1 1 * B.at 1 1 + A.at 1 2 * B.at 2 1 + A.at 1 3 * B.at 3 1,
     0 + A.at 2 0 * B.at 0 1 + A.at 2 1 * B.at 1 1 + A.at 2 2 * B.at 2 1 + A.at 2 3 * B.at 3 1,
     0 + A.at 3 0 * B.at 0 1 + A.at 3 1 * B.at 1 1 + A.at 3 2 * B.at 2 1 + A.at 3 3 * B.at 3 1,
     0 + A.at 0 0 * B.at 0 2 + A.at 0 1 * B.at 1 2 + A.at 0 2 * B.at 2 2 + A.at 0 3 * B.at 3 2,
     0 + A.at 1 0 * B.at 0 2 + A.at 1 1 * B.at 1 2 + A.at 1 2 * B.at 2 2 + A.at 1 3 * B.at 3 2,
     0 + A.at 2 0 * B.at 0 2 + A.at 2 1 * B.at 1 2 + A.at 2 2 * B.at 2 2 + A.at 2 3 * B.at 3 2,
     0 + A.at 3 0 * B.at 0 2 + A.at 3 1 * B.at 1 2 + A.at 3 2 * B.at 2 2 + A.at 3 3 * B.at 3 2,
     0 + A.at 0 0 * B.at 0 3 + A.at 0 1 * B.at 1 3 + A.at 0 2 * B.at 2 3 + A.at 0 3 * B.at 3 3,
     0 + A.at 1 0 * B.at 0 3 + A.at 1 1 * B.at 1 3 + A.at 1 2 * B.at 2 3 + A.at 1 3 * B.at 3 3,
     0 + A.at 2 0 * B.at 0 3 + A.at 2 1 * B.at 1 3 + A.at 2 2 * B.at 2 3 + A.at 2 3 * B.at 3 3,
     0 + A.at 3 0 * B.at 0 3 + A.at 3 1 * B.at 1 3 + A.at 3 2 * B.at 2 3 + A.at 3 3 * B.at 3 3] := by
  show (Matrix.mk _).m = _
  simp only [Matrix.mul, show List.range 4 = [0, 1, 2, 3] from rfl,
    List.foldl_cons, List.foldl_nil, Matrix.setAt, Matrix.zero]
  norm_num [List.set]

/-- Helper: the `components` field after a sequence of `add` calls. -/
theorem foldl_add_components {C : Type} (xs : List C) (cm : ComponentManager C) :
    (xs.foldl ComponentManager.add cm).components = cm.components ++ xs := by
  induction xs generalizing cm with
  | nil => simp
  | cons x xs ih => simp [ComponentManager.add, ih]

/-- Helper: the accumulator loop of `ComponentManager.get` computes
`filter`. -/
theorem get_loop_eq_filter {C : Type} (p : C → Bool) (l res : List C) :
    l.foldl (fun res n => if p n then res ++ [n] else res) res = res ++ l.filter p := by
  induction l generalizing res with
  | nil => simp
  | cons x xs ih =>
    by_cases h : p x <;> simp [h, ih, List.filter_cons]

/-- Helper: filtering commutes with a map that does not change the
filtering predicate. -/
theorem filter_map_comm {C : Type} (p : C → Bool) (g : C → C)
    (h : ∀ c, p (g c) = p c) (l : List C) :
    (l.map g).filter p = (l.filter p).map g := by
  induction l with
  | nil => simp
  | cons x xs ih =>
    by_cases hx : p x <;> simp [List.filter_cons, h x, hx, ih]

/-- C1 (counterexample): the claim that `rotatorZ(r)` equals the
standard right-handed rotation about Z fails at `r = π/2`: its entry at
row `0`, column `1` is `sin(π/2) = 1`, while the standard rotation
(`stdRotZ`, taken from the formula of the claim) has `-sin(π/2) = -1`
there. -/
theorem rotatorZ_claim_counterexample :
    ¬ ((Matrix.rotatorZ (Real.pi / 2)).at 0 1 = stdRotZ (Real.pi / 2) 0 1) := by
  norm_num [Matrix.rotatorZ, Matrix.at, stdRotZ, List.getD, Real.sin_pi_div_two]

/-- C1 (amended): for every angle `r` and indices `i, j < 4`, each of
`rotatorX(r)`, `rotatorY(r)`, `rotatorZ(r)`, read through the
mathematical accessor `at(i,j)`, equals the standard right-handed
rotation about the named axis by `-r` — equivalently, the transpose of
the standard rotation by `r`. -/
theorem rotators_transpose_of_standard (r : ℝ) (i j : ℕ) (hi : i < 4) (hj : j < 4) :
    (Matrix.rotatorX r).at i j = stdRotX (-r) i j ∧
    (Matrix.rotatorY r).at i j = stdRotY (-r) i j ∧
    (Matrix.rotatorZ r).at i j = stdRotZ (-r) i j := by
  refine ⟨?_, ?_, ?_⟩ <;>
    (interval_cases i <;> interval_cases j <;>
      norm_num [Matrix.rotatorX, Matrix.rotatorY, Matrix.rotatorZ, Matrix.at,
        stdRotX, stdRotY, stdRotZ, List.getD, Real.cos_neg, Real.sin_neg])

/-- Witness for C1 (amended) at `r = 0`, `i = 0`, `j = 1`. -/
theorem rotators_transpose_of_standard_witness :
    (0 : ℕ) < 4 ∧ (1 : ℕ) < 4 ∧
    ((Matrix.rotatorX 0).at 0 1 = stdRotX (-0) 0 1 ∧
     (Matrix.rotatorY 0).at 0 1 = stdRotY (-0) 0 1 ∧
     (Matrix.rotatorZ 0).at 0 1 = stdRotZ (-0) 0 1) :=
  ⟨by norm_num, by norm_num,
    rotators_transpose_of_standard 0 0 1 (by norm_num) (by norm_num)⟩

/-- C2: for all matrices `A`, `B` and indices `i, j < 4`, `A.mul(B)` has
`at(i,j) = Σ_{k=0..3} A.at(i,k) * B.at(k,j)`, the standard matrix
product.  (In this pure embedding `mul` only reads its operands and
builds its fresh accumulator `result`, so the operands are unchanged by
construction.) -/
theorem mul_is_standard_product (A B : Matrix) (i j : ℕ) (hi : i < 4) (hj : j < 4) :
    (A.mul B).at i j = ∑ k ∈ Finset.range 4, A.at i k * B.at k j := by
  interval_cases i <;> interval_cases j <;>
    simp only [Matrix.at, mul_m, Finset.sum_range_succ, Finset.sum_range_zero] <;>
    norm_num [List.getD]

/-- Witness for C2 at `A = B = identity`, `i = 2`, `j = 3`. -/
theorem mul_is_standard_product_witness :
    (Matrix.identity.mul Matrix.identity).at 2 3 =
      ∑ k ∈ Finset.range 4, Matrix.identity.at 2 k * Matrix.identity.at k 3 :=
  mul_is_standard_product Matrix.identity Matrix.identity 2 3 (by norm_num) (by norm_num)

/-- C3: a matrix constructed from `raw` of length at least 16 has
`at(i,j) = raw[4*j + i]` for `i, j < 4` (row/column accessors decode the
transposed storage); and on a constructed matrix (internal length 16),
`setAt(i,j,v)` makes `at(i,j)` return `v` and leaves every other entry
unchanged. -/
theorem at_setAt_rowcol_layout (raw : List ℝ) (h16 : 16 ≤ raw.length) (i j : ℕ)
    (hi : i < 4) (hj : j < 4) :
    (∀ M : Matrix, Matrix.make (some raw) = .ok M → M.at i j = raw.getD (4 * j + i) 0) ∧
    (∀ A : Matrix, A.m.length = 16 → ∀ v : ℝ,
      (A.setAt i j v).at i j = v ∧
      (∀ i2 j2, i2 < 4 → j2 < 4 → ¬ (i2 = i ∧ j2 = j) →
        (A.setAt i j v).at i2 j2 = A.at i2 j2)) := by
  constructor
  · intro M hM
    rw [Matrix.make] at hM
    rw [if_pos h16] at hM
    cases hM
    rw [Matrix.at]
    rw [getD_zero_eq_getElem (raw.take 16) (4 * j + i) (by simp [List.length_take]; omega),
      getD_zero_eq_getElem raw (4 * j + i) (by omega), List.getElem_take]
  · intro A hA v
    constructor
    · rw [Matrix.setAt, Matrix.at]
      rw [getD_zero_eq_getElem ((A.m).set (4 * j + i) v) (4 * j + i) (by simp [hA]; omega)]
      simp
    · intro i2 j2 hi2 hj2 hne
      rw [Matrix.setAt, Matrix.at, Matrix.at]
      rw [getD_zero_eq_getElem ((A.m).set (4 * j + i) v) (4 * j2 + i2) (by simp [hA]; omega),
        getD_zero_eq_getElem A.m (4 * j2 + i2) (by rw [hA]; omega)]
      have hne2 : 4 * j + i ≠ 4 * j2 + i2 := by omega
      exact List.getElem_set_ne hne2 _

/-- Witness for C3 on the constant list of sixteen fives, `i = 1`,
`j = 2`. -/
theorem at_setAt_rowcol_layout_witness :
    (Matrix.mk ((List.replicate 16 (5 : ℝ)).take 16)).at 1 2 =
      (List.replicate 16 (5 : ℝ)).getD (4 * 2 + 1) 0 :=
  (at_setAt_rowcol_layout (List.replicate 16 5) (by norm_num) 1 2 (by norm_num)
      (by norm_num)).1
    (Matrix.mk ((List.replicate 16 (5 : ℝ)).take 16)) (by rfl)

/-- C4: each `Sprite.draw(renderer)` call submits to the renderer
exactly one draw call carrying, in this order, `scaler(sclX, sclY, 1)`,
the composed rotation `rotatorX(rotX).mul(rotatorY(rotY).mul(rotatorZ(rotZ)))`,
`translator(posX, posY, posZ)` and the color vector `(r, g, b, a)`, all
recomputed from the current field values of the sprite. -/
theorem sprite_draw_forwards (s : Sprite) (log : List DrawCall) :
    s.draw log = log ++
      [⟨Matrix.scaler s.getScale.1 s.getScale.2 1,
        (Matrix.rotatorX s.getRotation.1).mul
          ((Matrix.rotatorY s.getRotation.2.1).mul (Matrix.rotatorZ s.getRotation.2.2)),
        Matrix.translator s.getPosition.1 s.getPosition.2.1 s.getPosition.2.2,
        ⟨[s.getColor.1, s.getColor.2.1, s.getColor.2.2.1, s.getColor.2.2.2]⟩⟩] :=
  rfl

/-- C5: after any sequence of `add` calls the stored collection is
exactly the added components in insertion order; `get` (whose class
argument is embedded as the Boolean `instanceof` test) returns exactly
the stored components passing that test, in insertion order, and an
empty list when none passes.  `get` is a pure function of the manager,
so the stored collection is unchanged by the call. -/
theorem get_returns_matching_in_order {C : Type} (xs : List C) (instOf : C → Bool) :
    ((xs.foldl ComponentManager.add (ComponentManager.new C)).components = xs) ∧
    (ComponentManager.get (xs.foldl ComponentManager.add (ComponentManager.new C)) instOf
        = xs.filter instOf) ∧
    ((∀ c ∈ xs, instOf c = false) →
      ComponentManager.get (xs.foldl ComponentManager.add (ComponentManager.new C)) instOf
        = []) := by
  have hc : (xs.foldl ComponentManager.add (ComponentManager.new C)).components = xs := by
    simpa [ComponentManager.new] using foldl_add_components xs (ComponentManager.new C)
  have hg : ComponentManager.get (xs.foldl ComponentManager.add (ComponentManager.new C))
      instOf = xs.filter instOf := by
    rw [ComponentManager.get, hc]
    simpa using get_loop_eq_filter instOf xs []
  refine ⟨hc, hg, fun hnone => ?_⟩
  rw [hg, List.filter_eq_nil_iff]
  intro c hcx
  simp [hnone c hcx]

/-- Witness for C5 on a three-element collection of naturals with the
test selecting the even ones. -/
theorem get_returns_matching_in_order_witness :
    ComponentManager.get
        (([0, 1, 2] : List ℕ).foldl ComponentManager.add (ComponentManager.new ℕ))
        (fun n => n % 2 == 0)
      = [0, 2] := by
  rw [(get_returns_matching_in_order ([0, 1, 2] : List ℕ) (fun n => n % 2 == 0)).2.1]
  rfl

/-- C6: constructing a `Vector` from fewer than 4 values, or a `Matrix`
from fewer than 16, throws an error carrying the fixed message and the
offending input; from at least the required length it succeeds and
retains exactly the first 4 (resp. 16) values; and with no argument it
yields the all-zero vector (resp. matrix). -/
theorem constructor_length_checks (raw : List ℝ) :
    (raw.length < 4 → Vector.make (some raw) =
      .error ("Vector(): the length of `raw` parameter must be no fewer than 4: ", raw)) ∧
    (4 ≤ raw.length → Vector.make (some raw) = .ok ⟨raw.take 4⟩) ∧
    (Vector.make none = .ok ⟨[0, 0, 0, 0]⟩) ∧
    (raw.length < 16 → Matrix.make (some raw) =
      .error ("Matrix(): the length of `raw` parameter must be no fewer than 16: ", raw)) ∧
    (16 ≤ raw.length → Matrix.make (some raw) = .ok ⟨raw.take 16⟩) ∧
    (Matrix.make none = .ok ⟨[0, 0, 0, 0, 0, 0, 0, 0, 0, 0, 0, 0, 0, 0, 0, 0]⟩) := by
  refine ⟨fun h => ?_, fun h => ?_, rfl, fun h => ?_, fun h => ?_, rfl⟩
  · rw [Vector.make, if_neg (by omega)]
  · rw [Vector.make, if_pos h]
  · rw [Matrix.make, if_neg (by omega)]
  · rw [Matrix.make, if_pos h]

/-- Witness for C6 on the three-element list `[1, 2, 3]`. -/
theorem constructor_length_checks_witness :
    ([(1 : ℝ), 2, 3].length < 4) ∧
    Vector.make (some [(1 : ℝ), 2, 3]) =
      .error ("Vector(): the length of `raw` parameter must be no fewer than 4: ",
        [(1 : ℝ), 2, 3]) :=
  ⟨by norm_num, (constructor_length_checks [1, 2, 3]).1 (by norm_num)⟩

/-- C7: the projection matrix uploaded at renderer construction is the
diagonal matrix `diag(2/1280, 2/960, -2/100, 1)`; over exact arithmetic
it maps every homogeneous world point with `X ∈ [-640, 640]`,
`Y ∈ [-480, 480]`, `Z ∈ [-50, 50]`, `w = 1` into the canonical clip
cube, sending each range endpoint to clip coordinate `±1` with
`X = 640 ↦ +1`, `Y = 480 ↦ +1`, `Z = 50 ↦ -1`. -/
theorem matProj_orthographic (x y z : ℝ)
    (hx1 : -640 ≤ x) (hx2 : x ≤ 640) (hy1 : -480 ≤ y) (hy2 : y ≤ 480)
    (hz1 : -50 ≤ z) (hz2 : z ≤ 50) :
    (matProj.at 0 0 = 2 / 1280 ∧ matProj.at 1 1 = 2 / 960 ∧
     matProj.at 2 2 = -(2 / 100) ∧ matProj.at 3 3 = 1 ∧
     (∀ i j, i < 4 → j < 4 → i ≠ j → matProj.at i j = 0)) ∧
    (-1 ≤ matProj.mulVec ![x, y, z, 1] 0 ∧ matProj.mulVec ![x, y, z, 1] 0 ≤ 1 ∧
     -1 ≤ matProj.mulVec ![x, y, z, 1] 1 ∧ matProj.mulVec ![x, y, z, 1] 1 ≤ 1 ∧
     -1 ≤ matProj.mulVec ![x, y, z, 1] 2 ∧ matProj.mulVec ![x, y, z, 1] 2 ≤ 1 ∧
     matProj.mulVec ![x, y, z, 1] 3 = 1) ∧
    (matProj.mulVec ![640, y, z, 1] 0 = 1 ∧ matProj.mulVec ![(-640), y, z, 1] 0 = -1 ∧
     matProj.mulVec ![x, 480, z, 1] 1 = 1 ∧ matProj.mulVec ![x, (-480), z, 1] 1 = -1 ∧
     matProj.mulVec ![x, y, 50, 1] 2 = -1 ∧ matProj.mulVec ![x, y, (-50), 1] 2 = 1) := by
  have hval : ∀ u v w : ℝ, matProj.mulVec ![u, v, w, 1] 0 = u / 640 ∧
      matProj.mulVec ![u, v, w, 1] 1 = v / 480 ∧
      matProj.mulVec ![u, v, w, 1] 2 = -(w / 50) ∧
      matProj.mulVec ![u, v, w, 1] 3 = 1 := by
    intro u v w
    refine ⟨?_, ?_, ?_, ?_⟩ <;>
      · simp [Matrix.mulVec, Fin.sum_univ_four, matProj, Matrix.at, List.getD,
          VIEWPORT_WIDTH, VIEWPORT_HEIGHT, VIEWPORT_DEPTH,
          show ((0 : Fin 4) : ℕ) = 0 from rfl, show ((1 : Fin 4) : ℕ) = 1 from rfl,
          show ((2 : Fin 4) : ℕ) = 2 from rfl, show ((3 : Fin 4) : ℕ) = 3 from rfl]
        try ring
  refine ⟨⟨?_, ?_, ?_, ?_, ?_⟩, ?_, ?_⟩
  · norm_num [matProj, Matrix.at, List.getD, VIEWPORT_WIDTH]
  · norm_num [matProj, Matrix.at, List.getD, VIEWPORT_HEIGHT]
  · norm_num [matProj, Matrix.at, List.getD, VIEWPORT_DEPTH]
  · norm_num [matProj, Matrix.at, List.getD]
  · intro i j hi hj hne
    interval_cases i <;> interval_cases j <;>
      first
      | exact (hne rfl).elim
      | norm_num [matProj, Matrix.at, List.getD]
  · obtain ⟨h0, h1, h2, h3⟩ := hval x y z
    rw [h0, h1, h2, h3]
    refine ⟨by linarith, by linarith, by linarith, by linarith, by linarith, by linarith,
      rfl⟩
  · obtain ⟨ha, -, -, -⟩ := hval 640 y z
    obtain ⟨hb, -, -, -⟩ := hval (-640) y z
    obtain ⟨-, hc, -, -⟩ := hval x 480 z
    obtain ⟨-, hd, -, -⟩ := hval x (-480) z
    obtain ⟨-, -, he, -⟩ := hval x y 50
    obtain ⟨-, -, hf, -⟩ := hval x y (-50)
    rw [ha, hb, hc, hd, he, hf]
    norm_num

/-- Witness for C7 at the world origin: the first diagonal entry. -/
theorem matProj_orthographic_witness : matProj.at 0 0 = 2 / 1280 :=
  (matProj_orthographic 0 0 0 (by norm_num) (by norm_num) (by norm_num) (by norm_num)
    (by norm_num) (by norm_num)).1.1

/-- C8: the result of `get` does not depend on the `enabled` flags.
Re-flagging every stored sprite (`g` leaves each component alone,
enables it or disables it) commutes with `get` for any `instanceof`
test that is insensitive to the flag — every `instanceof` test is,
since `enable`/`disable` only write the `enabled` field and never the
runtime class.  In particular a disabled component whose class passes
the test is still returned. -/
theorem get_ignores_enabled (xs : List Sprite) (g : Sprite → Sprite)
    (hg : ∀ s, g s = s ∨ g s = s.enable ∨ g s = s.disable)
    (instOf : Sprite → Bool)
    (hinst : ∀ s, instOf s.enable = instOf s ∧ instOf s.disable = instOf s) :
    (ComponentManager.get (ComponentManager.mk (xs.map g)) instOf
      = (ComponentManager.get (ComponentManager.mk xs) instOf).map g) ∧
    (∀ s ∈ xs, instOf s = true →
      Sprite.disable s ∈
        ComponentManager.get (ComponentManager.mk (xs.map Sprite.disable)) instOf) := by
  have hpg : ∀ s, instOf (g s) = instOf s := by
    intro s
    rcases hg s with h | h | h <;> rw [h]
    · exact (hinst s).1
    · exact (hinst s).2
  have hget : ∀ l : List Sprite,
      ComponentManager.get (ComponentManager.mk l) instOf = l.filter instOf := by
    intro l
    rw [ComponentManager.get]
    simpa using get_loop_eq_filter instOf l []
  constructor
  · rw [hget, hget, filter_map_comm instOf g hpg]
  · intro s hs hps
    rw [hget, filter_map_comm instOf Sprite.disable (fun c => (hinst c).2)]
    exact List.mem_map_of_mem _ (List.mem_filter.mpr ⟨hs, hps⟩)

/-- Witness for C8: disabling the single default sprite does not change
what `get` returns. -/
theorem get_ignores_enabled_witness :
    (ComponentManager.get
        (ComponentManager.mk ([Sprite.make none none none none].map Sprite.disable))
        (fun _ => true)
      = (ComponentManager.get (ComponentManager.mk [Sprite.make none none none none])
          (fun _ => true)).map Sprite.disable) ∧
    (∀ s ∈ [Sprite.make none none none none], (fun (_ : Sprite) => true) s = true →
      Sprite.disable s ∈
        ComponentManager.get
          (ComponentManager.mk ([Sprite.make none none none none].map Sprite.disable))
          (fun _ => true)) :=
  get_ignores_enabled [Sprite.make none none none none] Sprite.disable
    (fun _ => Or.inr (Or.inr rfl)) (fun _ => true) (fun _ => ⟨rfl, rfl⟩)

/-- C9: a sprite constructed with no arguments reports position
`(0,0,0)`, rotation `(0,0,0)`, scale `(1,1)`, color `(0,0,0,0)`, and is
enabled. -/
theorem sprite_default_state :
    (Sprite.make none none none none).getPosition = (0, 0, 0) ∧
    (Sprite.make none none none none).getRotation = (0, 0, 0) ∧
    (Sprite.make none none none none).getScale = (1, 1) ∧
    (Sprite.make none none none none).getColor = (0, 0, 0, 0) ∧
    (Sprite.make none none none none).isEnabled = true :=
  ⟨rfl, rfl, rfl, rfl, rfl⟩

/-- C10: `enable` and `disable` modify only the enabled flag: after
`enable`, `isEnabled` is true; after `disable`, false; and position,
rotation, scale and color are unchanged by either call. -/
theorem enable_disable_touch_only_flag (s : Sprite) :
    s.enable.isEnabled = true ∧ s.disable.isEnabled = false ∧
    s.enable.getPosition = s.getPosition ∧ s.enable.getRotation = s.getRotation ∧
    s.enable.getScale = s.getScale ∧ s.enable.getColor = s.getColor ∧
    s.disable.getPosition = s.getPosition ∧ s.disable.getRotation = s.getRotation ∧
    s.disable.getScale = s.getScale ∧ s.disable.getColor = s.getColor :=
  ⟨rfl, rfl, rfl, rfl, rfl, rfl, rfl, rfl, rfl, rfl⟩

end FS
